import Mathlib

/-!
# RBAC namespace controller of cloud-provider-openstack

A shallow embedding of

* `pkg/cloud-controller/rbac/rbac_utils.go` (the object generators),
* `pkg/cloud-controller/rbac/rbac_controller.go` (`syncRBAC`, the event
  handlers and `Run`),
* `cmd/openstack-controller/main.go` (`startControllers`),

followed by the properties of the specification that are stated about them.

The Kubernetes API objects are records holding the fields the Go code sets
(every other field of the Go structs keeps its zero value).  The API client is
a record of state-passing functions over an arbitrary store state `σ`; every
call made through it is appended, with its outcome, to a call log.
-/

namespace RBAC

/-! ## API object shapes (`k8s.io/api/rbac/v1`, `k8s.io/apimachinery/.../meta/v1`) -/

/-- The `metav1.TypeMeta` fields. -/
structure TypeMeta where
  Kind : String
  APIVersion : String
  deriving DecidableEq, Repr

/-- The `metav1.ObjectMeta` fields the generators set. -/
structure ObjectMeta where
  Name : String
  Namespace : String := ""
  deriving DecidableEq, Repr

/-- The `v1.PolicyRule` record. -/
structure PolicyRule where
  Verbs : List String
  APIGroups : List String := []
  Resources : List String := []
  ResourceNames : List String := []
  NonResourceURLs : List String := []
  deriving DecidableEq, Repr

/-- The `v1.Subject` record. -/
structure Subject where
  Kind : String
  APIGroup : String := ""
  Name : String
  Namespace : String := ""
  deriving DecidableEq, Repr

/-- The `v1.RoleRef` record. -/
structure RoleRef where
  APIGroup : String
  Kind : String
  Name : String
  deriving DecidableEq, Repr

/-- The `v1.Role` record. -/
structure Role where
  TypeMeta : TypeMeta
  ObjectMeta : ObjectMeta
  Rules : List PolicyRule
  deriving DecidableEq, Repr

/-- The `v1.RoleBinding` record. -/
structure RoleBinding where
  TypeMeta : TypeMeta
  ObjectMeta : ObjectMeta
  Subjects : List Subject
  RoleRef : RoleRef
  deriving DecidableEq, Repr

/-- The `v1.ClusterRole` record. -/
structure ClusterRole where
  TypeMeta : TypeMeta
  ObjectMeta : ObjectMeta
  Rules : List PolicyRule
  deriving DecidableEq, Repr

/-- The `v1.ClusterRoleBinding` record. -/
structure ClusterRoleBinding where
  TypeMeta : TypeMeta
  ObjectMeta : ObjectMeta
  Subjects : List Subject
  RoleRef : RoleRef
  deriving DecidableEq, Repr

/-- The constant `v1.APIGroupAll`. -/
def APIGroupAll : String := "*"

/-- The constant `v1.ResourceAll`. -/
def ResourceAll : String := "*"

/-- The constant `v1.VerbAll`. -/
def VerbAll : String := "*"

/-- A `metav1.Time`, as seconds since the epoch. -/
abbrev Time := Nat

/-- The fields of `apiv1.Namespace` the controller reads: `Name` and
`DeletionTimestamp` (a pointer, nil when the namespace is not being deleted). -/
structure Namespace where
  Name : String
  DeletionTimestamp : Option Time := none
  deriving DecidableEq, Repr

/-! ## `rbac_utils.go` -/

/-- The function `GenerateRoleByNamespace` generates default-role which has all
the permissions in the namespace. -/
def GenerateRoleByNamespace (namespace' : String) : Role :=
  let policyRule : PolicyRule := {
    Verbs := [VerbAll]
    APIGroups := [APIGroupAll]
    Resources := [ResourceAll] }
  let role : Role := {
    TypeMeta := {
      Kind := "Role"
      APIVersion := "rbac.authorization.k8s.io/v1" }
    ObjectMeta := {
      Name := "default-role"
      Namespace := namespace' }
    Rules := [policyRule] }
  role

/-- The function `GenerateRoleBinding` generates rolebinding which allows user
has default-role in the project namespace. -/
def GenerateRoleBinding (namespace' project : String) : RoleBinding :=
  let subject : Subject := {
    Kind := "User"
    Name := project }
  let roleRef : RoleRef := {
    APIGroup := "rbac.authorization.k8s.io"
    Kind := "Role"
    Name := "default-role" }
  let roleBinding : RoleBinding := {
    TypeMeta := {
      Kind := "RoleBinding"
      APIVersion := "rbac.authorization.k8s.io/v1" }
    ObjectMeta := {
      Name := project ++ "-rolebinding"
      Namespace := namespace' }
    Subjects := [subject]
    RoleRef := roleRef }
  roleBinding

/-- The function `GenerateServiceAccountRoleBinding` generates rolebinding of
service account in the namespace. -/
def GenerateServiceAccountRoleBinding (namespace' project : String) : RoleBinding :=
  let subject : Subject := {
    Kind := "ServiceAccount"
    Name := "default"
    Namespace := namespace' }
  let roleRef : RoleRef := {
    APIGroup := "rbac.authorization.k8s.io"
    Kind := "Role"
    Name := "default-role" }
  let roleBinding : RoleBinding := {
    TypeMeta := {
      Kind := "RoleBinding"
      APIVersion := "rbac.authorization.k8s.io/v1" }
    ObjectMeta := {
      Name := project ++ "-rolebinding-sa"
      Namespace := namespace' }
    Subjects := [subject]
    RoleRef := roleRef }
  roleBinding

/-- The function `GenerateClusterRole` generates namespace-creater ClusterRole
which has the permission of namespaces resource. -/
def GenerateClusterRole : ClusterRole :=
  let policyRule : PolicyRule := {
    Verbs := [VerbAll]
    APIGroups := [APIGroupAll]
    Resources := ["namespaces"] }
  let clusterRole : ClusterRole := {
    TypeMeta := {
      Kind := "ClusterRole"
      APIVersion := "rbac.authorization.k8s.io/v1" }
    ObjectMeta := {
      Name := "namespace-creater" }
    Rules := [policyRule] }
  clusterRole

/-- The function `GenerateClusterRoleBindingByProject` generates
ClusterRoleBinding which allows anyone in the "project" group to create
namespace. -/
def GenerateClusterRoleBindingByProject (project : String) : ClusterRoleBinding :=
  let subject : Subject := {
    Kind := "Group"
    Name := project }
  let roleRef : RoleRef := {
    APIGroup := "rbac.authorization.k8s.io"
    Kind := "ClusterRole"
    Name := "namespace-creater" }
  let clusterRoleBinding : ClusterRoleBinding := {
    TypeMeta := {
      Kind := "ClusterRoleBinding"
      APIVersion := "rbac.authorization.k8s.io/v1" }
    ObjectMeta := {
      Name := project ++ "-namespace-creater" }
    Subjects := [subject]
    RoleRef := roleRef }
  clusterRoleBinding

/-! ## `rbac_utils.go`, as Go executes it

Each generator builds its object with `&T{...}` and returns the pointer.  Here
the Go heap is explicit: a call runs on the heap it finds and either panics or
returns its value together with the heap it leaves. -/

/-- An object on the Go heap. -/
inductive HeapObject where
  | role (r : Role)
  | roleBinding (rb : RoleBinding)
  deriving DecidableEq, Repr

/-- A pointer: the position of its object in allocation order. -/
abbrev Ptr := Nat

/-- The Go heap: the objects allocated so far. -/
structure Heap where
  objects : List HeapObject
  deriving DecidableEq, Repr

/-- The object a pointer refers to, when the pointer is allocated. -/
def Heap.load (h : Heap) (p : Ptr) : Option HeapObject :=
  h.objects[p]?

/-- How a Go call ends: it returns a value or it panics. -/
inductive Result (α : Type) where
  | ok (value : α)
  | panicked (message : String)
  deriving DecidableEq, Repr

/-- A Go computation: it runs on a heap, which it may read and extend, and
returns a value and the heap afterwards, or panics. -/
def Go (α : Type) : Type :=
  Heap → Result (α × Heap)

/-- The computation that returns `a` and leaves the heap as it is. -/
def Go.ret {α : Type} (a : α) : Go α :=
  fun h => .ok (a, h)

/-- Sequencing: a panic of the first computation ends the whole. -/
def Go.andThen {α β : Type} (m : Go α) (f : α → Go β) : Go β :=
  fun h =>
    match m h with
    | .ok (a, h₁) => f a h₁
    | .panicked message => .panicked message

instance : Monad Go where
  pure := Go.ret
  bind := Go.andThen

/-- The expression `&T{...}`: the object is allocated at the next free position
and its pointer returned. -/
def Go.new (o : HeapObject) : Go Ptr :=
  fun h => .ok (h.objects.length, { objects := h.objects ++ [o] })

/-- The call `GenerateRoleByNamespace(namespace)`: the Role literal is allocated
and the pointer to it returned. -/
def GenerateRoleByNamespace.exec (namespace' : String) : Go Ptr := do
  let policyRule : PolicyRule := {
    Verbs := [VerbAll]
    APIGroups := [APIGroupAll]
    Resources := [ResourceAll] }
  let role ← Go.new (.role {
    TypeMeta := {
      Kind := "Role"
      APIVersion := "rbac.authorization.k8s.io/v1" }
    ObjectMeta := {
      Name := "default-role"
      Namespace := namespace' }
    Rules := [policyRule] })
  return role

/-- The call `GenerateRoleBinding(namespace, project)`: the RoleBinding literal
is allocated and the pointer to it returned. -/
def GenerateRoleBinding.exec (namespace' project : String) : Go Ptr := do
  let subject : Subject := {
    Kind := "User"
    Name := project }
  let roleRef : RoleRef := {
    APIGroup := "rbac.authorization.k8s.io"
    Kind := "Role"
    Name := "default-role" }
  let roleBinding ← Go.new (.roleBinding {
    TypeMeta := {
      Kind := "RoleBinding"
      APIVersion := "rbac.authorization.k8s.io/v1" }
    ObjectMeta := {
      Name := project ++ "-rolebinding"
      Namespace := namespace' }
    Subjects := [subject]
    RoleRef := roleRef })
  return roleBinding

/-- The call `GenerateServiceAccountRoleBinding(namespace, project)`: the
RoleBinding literal is allocated and the pointer to it returned. -/
def GenerateServiceAccountRoleBinding.exec (namespace' project : String) : Go Ptr := do
  let subject : Subject := {
    Kind := "ServiceAccount"
    Name := "default"
    Namespace := namespace' }
  let roleRef : RoleRef := {
    APIGroup := "rbac.authorization.k8s.io"
    Kind := "Role"
    Name := "default-role" }
  let roleBinding ← Go.new (.roleBinding {
    TypeMeta := {
      Kind := "RoleBinding"
      APIVersion := "rbac.authorization.k8s.io/v1" }
    ObjectMeta := {
      Name := project ++ "-rolebinding-sa"
      Namespace := namespace' }
    Subjects := [subject]
    RoleRef := roleRef })
  return roleBinding

/-! ## Errors (`k8s.io/apimachinery/pkg/api/errors`) -/

/-- A `metav1.StatusReason` is a string. -/
abbrev StatusReason := String

/-- The constant `metav1.StatusReasonUnknown`. -/
def StatusReasonUnknown : StatusReason := ""

/-- The constant `metav1.StatusReasonAlreadyExists`. -/
def StatusReasonAlreadyExists : StatusReason := "AlreadyExists"

/-- A non-nil Go `error`: either one that carries an API status (with its
reason), or any other error (transport failure and the like). -/
inductive GoError where
  | status (reason : StatusReason) (message : String)
  | other (message : String)
  deriving DecidableEq, Repr

/-- The function `apierrors.ReasonForError`: the reason of an API status error,
and `StatusReasonUnknown` for every other error, nil included. -/
def ReasonForError : Option GoError → StatusReason
  | some (.status reason _) => reason
  | _ => StatusReasonUnknown

/-- The function `apierrors.IsAlreadyExists`. -/
def IsAlreadyExists (err : Option GoError) : Bool :=
  ReasonForError err == StatusReasonAlreadyExists

/-! ## The API client and the call log -/

/-- A store-mutation call: `Roles(ns).Create(role)` or
`RoleBindings(ns).Create(roleBinding)`. -/
inductive Call where
  | createRole (ns : String) (role : Role)
  | createRoleBinding (ns : String) (roleBinding : RoleBinding)
  deriving DecidableEq, Repr

/-- A logged call with the error it returned (`none` is Go's nil). -/
structure CallRecord where
  call : Call
  err : Option GoError
  deriving DecidableEq, Repr

/-- The part of `kubernetes.Interface` the controller uses, over a store state
`σ`: each create takes the request namespace, the object and the store, and
returns the error (nil on success) and the store afterwards.  The object the
Go call also returns is discarded by every caller. -/
structure Interface (σ : Type) where
  createRole : String → Role → σ → Option GoError × σ
  createRoleBinding : String → RoleBinding → σ → Option GoError × σ

/-- The store together with the log of the calls made on it so far. -/
structure World (σ : Type) where
  store : σ
  calls : List CallRecord

/-- The calls logged in `w₂` after those of `w₁`. -/
def callsSince {σ : Type} (w₁ w₂ : World σ) : List CallRecord :=
  w₂.calls.drop w₁.calls.length

/-- The call `k8sclient.Rbac().Roles(ns).Create(role)`, logged. -/
def Interface.RolesCreate {σ : Type} (k : Interface σ) (ns : String) (role : Role)
    (w : World σ) : Option GoError × World σ :=
  let r := k.createRole ns role w.store
  (r.1, { store := r.2, calls := w.calls ++ [⟨.createRole ns role, r.1⟩] })

/-- The call `k8sclient.Rbac().RoleBindings(ns).Create(roleBinding)`, logged. -/
def Interface.RoleBindingsCreate {σ : Type} (k : Interface σ) (ns : String)
    (roleBinding : RoleBinding) (w : World σ) : Option GoError × World σ :=
  let r := k.createRoleBinding ns roleBinding w.store
  (r.1, { store := r.2, calls := w.calls ++ [⟨.createRoleBinding ns roleBinding, r.1⟩] })

/-! ## `rbac_controller.go` -/

/-- The type `Controller` manages life cycle of namespace's rbac. -/
structure Controller (σ : Type) where
  k8sclient : Interface σ

/-- The function `NewRBACController` creates a new RBAC controller; its error
result is always nil. -/
def NewRBACController {σ : Type} (kubeClient : Interface σ) :
    Controller σ × Option GoError :=
  let c : Controller σ := { k8sclient := kubeClient }
  (c, none)

/-- The method `Controller.syncRBAC`. -/
def Controller.syncRBAC {σ : Type} (c : Controller σ) (ns : Namespace) (w : World σ) :
    Option GoError × World σ :=
  if ns.DeletionTimestamp ≠ none then
    (none, w)
  else
    let rbacClient := c.k8sclient
    -- Create role for project
    let role := GenerateRoleByNamespace ns.Name
    let (err, w) := rbacClient.RolesCreate ns.Name role w
    if err ≠ none ∧ ¬ IsAlreadyExists err then
      (err, w)
    else
      -- Create rolebinding for project
      let roleBinding := GenerateRoleBinding ns.Name ns.Name
      let (err, w) := rbacClient.RoleBindingsCreate ns.Name roleBinding w
      if err ≠ none ∧ ¬ IsAlreadyExists err then
        (err, w)
      else
        let saRoleBinding := GenerateServiceAccountRoleBinding ns.Name ns.Name
        let (err, w) := rbacClient.RoleBindingsCreate ns.Name saRoleBinding w
        if err ≠ none ∧ ¬ IsAlreadyExists err then
          (err, w)
        else
          (none, w)

/-- The method `Controller.onAdd`: the object is asserted to be a namespace and
synchronised; the error `syncRBAC` returns is dropped. -/
def Controller.onAdd {σ : Type} (c : Controller σ) (obj : Namespace) (w : World σ) :
    World σ :=
  let namespace' := obj
  (c.syncRBAC namespace' w).2

/-- The method `Controller.onUpdate`: the namespace synchronised is the first
argument, `obj1`; the error `syncRBAC` returns is dropped. -/
def Controller.onUpdate {σ : Type} (c : Controller σ) (obj1 _obj2 : Namespace)
    (w : World σ) : World σ :=
  let namespace' := obj1
  (c.syncRBAC namespace' w).2

/-- The method `Controller.onDelete`: it only logs. -/
def Controller.onDelete {σ : Type} (_c : Controller σ) (obj : Namespace) (w : World σ) :
    World σ :=
  let _namespace := obj
  w

/-- A namespace event as the informer hands it to
`cache.ResourceEventHandlerFuncs`: `OnAdd(obj)`, `OnUpdate(oldObj, newObj)`,
`OnDelete(obj)`. -/
inductive Event where
  | add (obj : Namespace)
  | update (oldObj newObj : Namespace)
  | delete (obj : Namespace)
  deriving DecidableEq, Repr

/-- The namespace an event delivers: for an update, the namespace's state after
the change. -/
def Event.delivered : Event → Namespace
  | .add obj => obj
  | .update _ newObj => newObj
  | .delete obj => obj

/-- The handlers registered in `Run` (`AddFunc: c.onAdd`,
`UpdateFunc: c.onUpdate`, `DeleteFunc: c.onDelete`), as
`cache.ResourceEventHandlerFuncs` calls them: `UpdateFunc(oldObj, newObj)`. -/
def Controller.handle {σ : Type} (c : Controller σ) : Event → World σ → World σ
  | .add obj, w => c.onAdd obj w
  | .update oldObj newObj, w => c.onUpdate oldObj newObj w
  | .delete obj, w => c.onDelete obj w

/-- What the environment does during one run of the process: whether the
namespace subscription (the informer's list and watch) fails, and whether an
interrupt or termination signal arrives. -/
structure Environment where
  subscriptionFails : Bool
  termSignal : Bool
  deriving DecidableEq, Repr

/-- How a blocking call ends: it blocks forever, or it returns an error value
(`none` is Go's nil). -/
inductive Outcome where
  | blocked
  | returned (err : Option GoError)
  deriving DecidableEq, Repr

/-- The method `Controller.Run`.  The informer is started in a goroutine of its
own (`go namespaceInformor.Run(stopCh)`), so whether the subscription fails is
not observed by `Run`; `Run` then waits for `stopCh` to be closed
(`stopClosed` says whether it ever is) and returns nil. -/
def Controller.Run {σ : Type} (_c : Controller σ) (_subscriptionFails : Bool)
    (stopClosed : Bool) : Outcome :=
  -- go namespaceInformor.Run(stopCh)
  -- <-stopCh
  if stopClosed then
    .returned none
  else
    .blocked

/-! ## `main.go` -/

/-- The function `startControllers`.  The controller runs as the only task of
an error group whose context is cancelled by `cancel()` or by the task
returning a non-nil error; `Run` waits on that context's `Done` channel. -/
def startControllers {σ : Type} (kubeClient : Interface σ) (env : Environment) : Outcome :=
  -- Creates a new RBAC controller
  let (rbacController, err) := NewRBACController kubeClient
  if err ≠ none then
    .returned err
  else
    -- start rbac controller: until cancel() is called, ctx.Done() is closed
    -- only by the task returning a non-nil error
    let task := rbacController.Run env.subscriptionFails false
    let ctxDone : Bool :=
      match task with
      | .returned (some _) => true
      | _ => false
    -- select { case <-term: ... case <-ctx.Done(): }
    if env.termSignal || ctxDone then
      -- cancel(); wg.Wait()
      match rbacController.Run env.subscriptionFails true with
      | .returned (some err) => .returned (some err)
      | .returned none => .returned none
      | .blocked => .blocked
    else
      .blocked

/-! ## A reference store -/

/-- The two kinds of object the controller creates. -/
inductive ResourceKind where
  | Role
  | RoleBinding
  deriving DecidableEq, Repr

/-- An object held by the store. -/
inductive StoredObject where
  | role (r : Role)
  | roleBinding (rb : RoleBinding)
  deriving DecidableEq, Repr

/-- The kind of a stored object. -/
def StoredObject.kind : StoredObject → ResourceKind
  | .role _ => .Role
  | .roleBinding _ => .RoleBinding

/-- The metadata name of a stored object. -/
def StoredObject.name : StoredObject → String
  | .role r => r.ObjectMeta.Name
  | .roleBinding rb => rb.ObjectMeta.Name

/-- A store entry: an object in the namespace it was created in. -/
structure Entry where
  ns : String
  obj : StoredObject
  deriving DecidableEq, Repr

/-- The key of an entry: (kind, namespace, name). -/
def Entry.key (e : Entry) : ResourceKind × String × String :=
  (e.obj.kind, e.ns, e.obj.name)

/-- Modelled from the spec: the external store behind the outbound interface
`create(object) → ok | alreadyExists | error`, as a set of objects keyed by
(kind, namespace, name), kept in insertion order. -/
abbrev Store := List Entry

/-- Modelled from the spec: the `create` of the external store inserts and
returns ok when the key is absent, and returns already-exists, leaving the
store unchanged, when the key is present. -/
def Store.create (s : Store) (e : Entry) : Option GoError × Store :=
  if s.any (fun x => x.key = e.key) then
    (some (.status StatusReasonAlreadyExists "object already exists"), s)
  else
    (none, s ++ [e])

/-- The API client backed by the reference store. -/
def storeClient : Interface Store where
  createRole ns role s := s.create ⟨ns, .role role⟩
  createRoleBinding ns roleBinding s := s.create ⟨ns, .roleBinding roleBinding⟩

/-- The Roles the store holds in namespace `ns`. -/
def Store.roles (s : Store) (ns : String) : List Role :=
  s.filterMap fun e =>
    match e.obj with
    | .role r => if e.ns = ns then some r else none
    | .roleBinding _ => none

/-- The RoleBindings the store holds in namespace `ns`. -/
def Store.roleBindings (s : Store) (ns : String) : List RoleBinding :=
  s.filterMap fun e =>
    match e.obj with
    | .roleBinding rb => if e.ns = ns then some rb else none
    | .role _ => none

/-! ## Vocabulary of the properties -/

/-- A create outcome that is a failure other than already-exists: the condition
`err != nil && !apierrors.IsAlreadyExists(err)`. -/
def failed (err : Option GoError) : Prop :=
  err ≠ none ∧ IsAlreadyExists err = false

instance (err : Option GoError) : Decidable (failed err) := by
  unfold failed; infer_instance

/-- The Role create `syncRBAC` submits for the namespace named `N`. -/
def roleCall (N : String) : Call :=
  .createRole N (GenerateRoleByNamespace N)

/-- The user RoleBinding create `syncRBAC` submits for the namespace named `N`. -/
def userBindingCall (N : String) : Call :=
  .createRoleBinding N (GenerateRoleBinding N N)

/-- The service-account RoleBinding create `syncRBAC` submits for the namespace
named `N`. -/
def saBindingCall (N : String) : Call :=
  .createRoleBinding N (GenerateServiceAccountRoleBinding N N)

/-- Whether a call is a RoleBinding create. -/
def Call.isRoleBindingCreate : Call → Bool
  | .createRoleBinding _ _ => true
  | .createRole _ _ => false

/-! ## Concrete runs -/

/-- A controller over the reference store. -/
def storeController : Controller Store :=
  (NewRBACController storeClient).1

/-- The empty store with an empty call log. -/
def emptyWorld : World Store :=
  { store := [], calls := [] }

/-- The first of two successive `syncRBAC` calls for the live namespace `N` on
the reference store `s`. -/
def firstSync (N : String) (s : Store) (log : List CallRecord) : Option GoError × World Store :=
  storeController.syncRBAC ⟨N, none⟩ ⟨s, log⟩

/-- The second of two successive `syncRBAC` calls for the live namespace `N`: it
starts from the world the first call left. -/
def secondSync (N : String) (s : Store) (log : List CallRecord) : Option GoError × World Store :=
  storeController.syncRBAC ⟨N, none⟩ (firstSync N s log).2

/-- A client whose Role create is refused with a Forbidden status and whose
RoleBinding create goes to the reference store. -/
def forbiddenRolesClient : Interface Store where
  createRole _ _ s := (some (.status "Forbidden" "roles is forbidden"), s)
  createRoleBinding ns roleBinding s := s.create ⟨ns, .roleBinding roleBinding⟩

/-- A controller over `forbiddenRolesClient`. -/
def forbiddenRolesController : Controller Store :=
  (NewRBACController forbiddenRolesClient).1

/-- The live namespace `team-a`. -/
def teamA : Namespace :=
  { Name := "team-a" }

/-! ## Lemmas on the heap -/

/-- The pointer `&T{...}` returns refers to the object allocated. -/
theorem Heap.load_new (h : Heap) (o : HeapObject) :
    Heap.load { objects := h.objects ++ [o] } h.objects.length = some o := by
  simp [Heap.load]

/-- A later allocation leaves the object of an earlier pointer as it was. -/
theorem Heap.load_new_next (h : Heap) (o o₂ : HeapObject) :
    Heap.load { objects := (h.objects ++ [o]) ++ [o₂] } h.objects.length = some o := by
  unfold Heap.load
  rw [List.getElem?_append_left (by simp)]
  simp

/-- Two successive allocations return different pointers. -/
theorem Heap.new_ne_next (h : Heap) (o : HeapObject) :
    h.objects.length ≠ (h.objects ++ [o]).length := by
  simp

/-! ## Lemmas on `syncRBAC` -/

/-- The condition `failed` is the condition of the Go `if`. -/
theorem failed_iff {err : Option GoError} :
    failed err ↔ (¬ err = none ∧ ¬ IsAlreadyExists err = true) := by
  simp [failed]

/-- The calls logged since `w₁` when the log of `w₂` extends it by `tr`. -/
theorem callsSince_of_append {σ : Type} {w₁ w₂ : World σ} {tr : List CallRecord}
    (h : w₂.calls = w₁.calls ++ tr) : callsSince w₁ w₂ = tr := by
  simp [callsSince, h]

/-- The log after `syncRBAC` on a live namespace extends the log before it by
one of four traces: the Role create failed; the user RoleBinding create
failed; the service-account RoleBinding create failed; or none failed. -/
theorem syncRBAC_trace {σ : Type} (c : Controller σ) (ns : Namespace) (w : World σ)
    (h : ns.DeletionTimestamp = none) :
    ∃ tr, (c.syncRBAC ns w).2.calls = w.calls ++ tr ∧
      ((∃ e₁, tr = [⟨roleCall ns.Name, e₁⟩] ∧ failed e₁ ∧ (c.syncRBAC ns w).1 = e₁) ∨
       (∃ e₁ e₂, tr = [⟨roleCall ns.Name, e₁⟩, ⟨userBindingCall ns.Name, e₂⟩] ∧
          ¬ failed e₁ ∧ failed e₂ ∧ (c.syncRBAC ns w).1 = e₂) ∨
       (∃ e₁ e₂ e₃, tr = [⟨roleCall ns.Name, e₁⟩, ⟨userBindingCall ns.Name, e₂⟩,
            ⟨saBindingCall ns.Name, e₃⟩] ∧
          ¬ failed e₁ ∧ ¬ failed e₂ ∧ failed e₃ ∧ (c.syncRBAC ns w).1 = e₃) ∨
       (∃ e₁ e₂ e₃, tr = [⟨roleCall ns.Name, e₁⟩, ⟨userBindingCall ns.Name, e₂⟩,
            ⟨saBindingCall ns.Name, e₃⟩] ∧
          ¬ failed e₁ ∧ ¬ failed e₂ ∧ ¬ failed e₃ ∧ (c.syncRBAC ns w).1 = none)) := by
  unfold Controller.syncRBAC
  simp only [h, ne_eq, not_true_eq_false, if_false, Interface.RolesCreate,
    Interface.RoleBindingsCreate]
  split_ifs with h1 h2 h3
  · exact ⟨[_], rfl, Or.inl ⟨_, rfl, failed_iff.2 h1, rfl⟩⟩
  · exact ⟨[_, _], by simp [roleCall, userBindingCall], Or.inr (Or.inl ⟨_, _, rfl, mt failed_iff.1 h1, failed_iff.2 h2, rfl⟩)⟩
  · exact ⟨[_, _, _], by simp [roleCall, userBindingCall, saBindingCall], Or.inr (Or.inr (Or.inl
      ⟨_, _, _, rfl, mt failed_iff.1 h1, mt failed_iff.1 h2, failed_iff.2 h3, rfl⟩))⟩
  · exact ⟨[_, _, _], by simp [roleCall, userBindingCall, saBindingCall], Or.inr (Or.inr (Or.inr
      ⟨_, _, _, rfl, mt failed_iff.1 h1, mt failed_iff.1 h2, mt failed_iff.1 h3, rfl⟩))⟩

/-- The user and the service-account RoleBinding names differ for every namespace. -/
theorem rolebinding_name_ne (N : String) : N ++ "-rolebinding" ≠ N ++ "-rolebinding-sa" := by
  intro h
  have h2 := congrArg String.length h
  simp [String.length_append] at h2
  exact absurd h2 (by decide)

/-- The two RoleBinding creates of `syncRBAC` are different calls. -/
theorem userBindingCall_ne_saBindingCall (N : String) :
    userBindingCall N ≠ saBindingCall N := by
  intro h
  simp only [userBindingCall, saBindingCall, GenerateRoleBinding,
    GenerateServiceAccountRoleBinding, Call.createRoleBinding.injEq, RoleBinding.mk.injEq,
    ObjectMeta.mk.injEq] at h
  exact rolebinding_name_ne N h.2.2.1.1

/-! ## The claims -/

/-- C1: for a namespace whose DeletionTimestamp is non-nil, whatever the client
and the store, `syncRBAC` returns nil, leaves the store unchanged and makes no
store call. -/
theorem syncRBAC_deleted_is_noop {σ : Type} (c : Controller σ) (ns : Namespace)
    (w : World σ) (h : ns.DeletionTimestamp ≠ none) :
    (c.syncRBAC ns w).1 = none ∧ (c.syncRBAC ns w).2.store = w.store ∧
      callsSince w (c.syncRBAC ns w).2 = [] := by
  simp [Controller.syncRBAC, h, callsSince]

/-- Witness of C1: namespace `team-b` with a deletion marker, on the empty
reference store. -/
theorem syncRBAC_deleted_is_noop_witness :
    (⟨"team-b", some 1⟩ : Namespace).DeletionTimestamp ≠ none ∧
      ((storeController.syncRBAC ⟨"team-b", some 1⟩ emptyWorld).1 = none ∧
        (storeController.syncRBAC ⟨"team-b", some 1⟩ emptyWorld).2.store = emptyWorld.store ∧
        callsSince emptyWorld (storeController.syncRBAC ⟨"team-b", some 1⟩ emptyWorld).2 = []) :=
  ⟨by decide, syncRBAC_deleted_is_noop storeController ⟨"team-b", some 1⟩ emptyWorld (by decide)⟩

/-- C2: for a namespace without deletion marker and any client, `syncRBAC`
returns a non-nil error exactly when one of the creates it attempted failed
with something other than already-exists; the error returned is then that
create's error and that create is the last one attempted, all earlier ones not
having failed.  A failed Role create leaves both RoleBinding creates
unattempted, and a failed user RoleBinding create leaves the service-account
RoleBinding create unattempted. -/
theorem syncRBAC_error_iff_create_failed {σ : Type} (c : Controller σ) (ns : Namespace)
    (w : World σ) (h : ns.DeletionTimestamp = none) :
    ((c.syncRBAC ns w).1 ≠ none ↔ ∃ r ∈ callsSince w (c.syncRBAC ns w).2, failed r.err) ∧
    (∀ r ∈ callsSince w (c.syncRBAC ns w).2, failed r.err →
      (c.syncRBAC ns w).1 = r.err ∧
      ∃ pre, callsSince w (c.syncRBAC ns w).2 = pre ++ [r] ∧ ∀ p ∈ pre, ¬ failed p.err) ∧
    (∀ r ∈ callsSince w (c.syncRBAC ns w).2, failed r.err → r.call = roleCall ns.Name →
      ∀ q ∈ callsSince w (c.syncRBAC ns w).2, q.call.isRoleBindingCreate = false) ∧
    (∀ r ∈ callsSince w (c.syncRBAC ns w).2, failed r.err →
      r.call = userBindingCall ns.Name →
      ∀ q ∈ callsSince w (c.syncRBAC ns w).2, q.call ≠ saBindingCall ns.Name) := by
  obtain ⟨tr, htr, hcases⟩ := syncRBAC_trace c ns w h
  rw [callsSince_of_append htr]
  have hne := userBindingCall_ne_saBindingCall ns.Name
  have hru : roleCall ns.Name ≠ userBindingCall ns.Name := by
    simp [roleCall, userBindingCall]
  have hrs : roleCall ns.Name ≠ saBindingCall ns.Name := by
    simp [roleCall, saBindingCall]
  rcases hcases with ⟨e₁, rfl, f₁, hres⟩ | ⟨e₁, e₂, rfl, f₁, f₂, hres⟩ |
    ⟨e₁, e₂, e₃, rfl, f₁, f₂, f₃, hres⟩ | ⟨e₁, e₂, e₃, rfl, f₁, f₂, f₃, hres⟩
  · rw [hres]
    refine ⟨?_, ?_, ?_, ?_⟩
    · simp [f₁, f₁.1]
    · intro r hr _
      simp only [List.mem_singleton] at hr
      subst hr
      exact ⟨rfl, [], rfl, by simp⟩
    · intro r hr _ _ q hq
      simp only [List.mem_singleton] at hq
      subst hq
      rfl
    · intro r hr _ hc
      simp only [List.mem_singleton] at hr
      subst hr
      exact absurd hc hru
  · rw [hres]
    refine ⟨?_, ?_, ?_, ?_⟩
    · simp [f₁, f₂, f₂.1]
    · intro r hr hf
      simp only [List.mem_cons, List.mem_singleton, List.not_mem_nil, or_false] at hr
      rcases hr with rfl | rfl
      · exact absurd hf f₁
      · exact ⟨rfl, [_], rfl, by simpa using f₁⟩
    · intro r hr hf _
      simp only [List.mem_cons, List.mem_singleton, List.not_mem_nil, or_false] at hr
      rcases hr with rfl | rfl
      · exact absurd hf f₁
      · exact absurd ‹_› (Ne.symm hru)
    · intro r hr hf _ q hq
      simp only [List.mem_cons, List.mem_singleton, List.not_mem_nil, or_false] at hq
      rcases hq with rfl | rfl
      · exact hrs
      · exact hne
  · rw [hres]
    refine ⟨?_, ?_, ?_, ?_⟩
    · simp [f₁, f₂, f₃, f₃.1]
    · intro r hr hf
      simp only [List.mem_cons, List.mem_singleton, List.not_mem_nil, or_false] at hr
      rcases hr with rfl | rfl | rfl
      · exact absurd hf f₁
      · exact absurd hf f₂
      · exact ⟨rfl, [_, _], rfl, by simpa using ⟨f₁, f₂⟩⟩
    · intro r hr hf hc
      simp only [List.mem_cons, List.mem_singleton, List.not_mem_nil, or_false] at hr
      rcases hr with rfl | rfl | rfl
      · exact absurd hf f₁
      · exact absurd hf f₂
      · exact absurd hc (Ne.symm hrs)
    · intro r hr hf hc
      simp only [List.mem_cons, List.mem_singleton, List.not_mem_nil, or_false] at hr
      rcases hr with rfl | rfl | rfl
      · exact absurd hf f₁
      · exact absurd hf f₂
      · exact absurd hc (Ne.symm hne)
  · rw [hres]
    refine ⟨?_, ?_, ?_, ?_⟩
    · simp [f₁, f₂, f₃]
    all_goals
      intro r hr hf
      simp only [List.mem_cons, List.mem_singleton, List.not_mem_nil, or_false] at hr
      rcases hr with rfl | rfl | rfl
      · exact absurd hf f₁
      · exact absurd hf f₂
      · exact absurd hf f₃

/-- Witness of C2: namespace `team-a` on a client that refuses the Role
create. -/
theorem syncRBAC_error_iff_create_failed_witness :
    teamA.DeletionTimestamp = none ∧
    (((forbiddenRolesController.syncRBAC teamA emptyWorld).1 ≠ none ↔
      ∃ r ∈ callsSince emptyWorld (forbiddenRolesController.syncRBAC teamA emptyWorld).2,
        failed r.err) ∧
    (∀ r ∈ callsSince emptyWorld (forbiddenRolesController.syncRBAC teamA emptyWorld).2,
      failed r.err →
      (forbiddenRolesController.syncRBAC teamA emptyWorld).1 = r.err ∧
      ∃ pre, callsSince emptyWorld (forbiddenRolesController.syncRBAC teamA emptyWorld).2 =
        pre ++ [r] ∧ ∀ p ∈ pre, ¬ failed p.err) ∧
    (∀ r ∈ callsSince emptyWorld (forbiddenRolesController.syncRBAC teamA emptyWorld).2,
      failed r.err → r.call = roleCall teamA.Name →
      ∀ q ∈ callsSince emptyWorld (forbiddenRolesController.syncRBAC teamA emptyWorld).2,
        q.call.isRoleBindingCreate = false) ∧
    (∀ r ∈ callsSince emptyWorld (forbiddenRolesController.syncRBAC teamA emptyWorld).2,
      failed r.err → r.call = userBindingCall teamA.Name →
      ∀ q ∈ callsSince emptyWorld (forbiddenRolesController.syncRBAC teamA emptyWorld).2,
        q.call ≠ saBindingCall teamA.Name)) :=
  ⟨by decide, syncRBAC_error_iff_create_failed forbiddenRolesController teamA emptyWorld
    (by decide)⟩

/-- C4: for a namespace without deletion marker, if every create outcome the
client returned during the call is nil or already-exists, `syncRBAC` returns
nil and the creates it attempted are exactly the Role, then the user
RoleBinding, then the service-account RoleBinding. -/
theorem syncRBAC_three_creates_in_order {σ : Type} (c : Controller σ) (ns : Namespace)
    (w : World σ) (h : ns.DeletionTimestamp = none)
    (hok : ∀ r ∈ callsSince w (c.syncRBAC ns w).2,
      r.err = none ∨ IsAlreadyExists r.err = true) :
    (c.syncRBAC ns w).1 = none ∧
      (callsSince w (c.syncRBAC ns w).2).map (fun r => r.call) =
        [roleCall ns.Name, userBindingCall ns.Name, saBindingCall ns.Name] := by
  obtain ⟨tr, htr, hcases⟩ := syncRBAC_trace c ns w h
  rw [callsSince_of_append htr] at hok ⊢
  have hnf : ∀ r ∈ tr, ¬ failed r.err := by
    intro r hr hf
    rcases hok r hr with h0 | h1
    · exact hf.1 h0
    · rw [hf.2] at h1
      exact Bool.noConfusion h1
  rcases hcases with ⟨e₁, rfl, f₁, _⟩ | ⟨e₁, e₂, rfl, _, f₂, _⟩ |
    ⟨e₁, e₂, e₃, rfl, _, _, f₃, _⟩ | ⟨e₁, e₂, e₃, rfl, _, _, _, hres⟩
  · exact absurd f₁ (hnf ⟨roleCall ns.Name, e₁⟩ (by simp))
  · exact absurd f₂ (hnf ⟨userBindingCall ns.Name, e₂⟩ (by simp))
  · exact absurd f₃ (hnf ⟨saBindingCall ns.Name, e₃⟩ (by simp))
  · exact ⟨hres, rfl⟩

/-- Witness of C4: namespace `team-a` on the reference store that already holds
its three objects, where all three creates return already-exists. -/
theorem syncRBAC_three_creates_in_order_witness :
    teamA.DeletionTimestamp = none ∧
    (∀ r ∈ callsSince (firstSync "team-a" [] []).2
        (storeController.syncRBAC teamA (firstSync "team-a" [] []).2).2,
      r.err = none ∨ IsAlreadyExists r.err = true) ∧
    ((storeController.syncRBAC teamA (firstSync "team-a" [] []).2).1 = none ∧
      (callsSince (firstSync "team-a" [] []).2
          (storeController.syncRBAC teamA (firstSync "team-a" [] []).2).2).map
          (fun r => r.call) =
        [roleCall teamA.Name, userBindingCall teamA.Name, saBindingCall teamA.Name]) :=
  ⟨by decide, by decide,
    syncRBAC_three_creates_in_order storeController teamA (firstSync "team-a" [] []).2
      (by decide) (by decide)⟩

/-- C5: for every namespace name `N`, `GenerateRoleByNamespace N` has kind
`Role`, API version `rbac.authorization.k8s.io/v1`, name `default-role`,
namespace `N`, and exactly one policy rule, whose verbs, API groups and
resources are each the single wildcard `*`. -/
theorem GenerateRoleByNamespace_shape (N : String) :
    (GenerateRoleByNamespace N).TypeMeta.Kind = "Role" ∧
    (GenerateRoleByNamespace N).TypeMeta.APIVersion = "rbac.authorization.k8s.io/v1" ∧
    (GenerateRoleByNamespace N).ObjectMeta.Name = "default-role" ∧
    (GenerateRoleByNamespace N).ObjectMeta.Namespace = N ∧
    (GenerateRoleByNamespace N).Rules =
      [{ Verbs := ["*"], APIGroups := ["*"], Resources := ["*"],
         ResourceNames := [], NonResourceURLs := [] }] :=
  ⟨rfl, rfl, rfl, rfl, rfl⟩

/-- C6: for every namespace name `N`, every RoleBinding create `syncRBAC` makes
for the live namespace `N` submits `GenerateRoleBinding N N` or
`GenerateServiceAccountRoleBinding N N` in namespace `N`, and a call that
returns nil has submitted exactly these two, in this order.  The first is named
`N-rolebinding`, in namespace `N`, with the single subject User `N`; the second
is named `N-rolebinding-sa`, in namespace `N`, with the single subject
ServiceAccount `default` of namespace `N`.  Both refer to a Role by the name of
`GenerateRoleByNamespace N`, which is `default-role`, and lie in that Role's
namespace. -/
theorem syncRBAC_submits_generated_bindings (N : String) {σ : Type} (c : Controller σ)
    (w : World σ) :
    (∀ r ∈ callsSince w (c.syncRBAC ⟨N, none⟩ w).2, r.call.isRoleBindingCreate = true →
      r.call = .createRoleBinding N (GenerateRoleBinding N N) ∨
      r.call = .createRoleBinding N (GenerateServiceAccountRoleBinding N N)) ∧
    ((c.syncRBAC ⟨N, none⟩ w).1 = none →
      ((callsSince w (c.syncRBAC ⟨N, none⟩ w).2).map (fun r => r.call)).filter
          Call.isRoleBindingCreate =
        [.createRoleBinding N (GenerateRoleBinding N N),
         .createRoleBinding N (GenerateServiceAccountRoleBinding N N)]) ∧
    (GenerateRoleBinding N N).TypeMeta = ⟨"RoleBinding", "rbac.authorization.k8s.io/v1"⟩ ∧
    (GenerateRoleBinding N N).ObjectMeta.Name = N ++ "-rolebinding" ∧
    (GenerateRoleBinding N N).ObjectMeta.Namespace = N ∧
    (GenerateRoleBinding N N).Subjects =
      [{ Kind := "User", APIGroup := "", Name := N, Namespace := "" }] ∧
    (GenerateServiceAccountRoleBinding N N).TypeMeta =
      ⟨"RoleBinding", "rbac.authorization.k8s.io/v1"⟩ ∧
    (GenerateServiceAccountRoleBinding N N).ObjectMeta.Name = N ++ "-rolebinding-sa" ∧
    (GenerateServiceAccountRoleBinding N N).ObjectMeta.Namespace = N ∧
    (GenerateServiceAccountRoleBinding N N).Subjects =
      [{ Kind := "ServiceAccount", APIGroup := "", Name := "default", Namespace := N }] ∧
    (GenerateRoleBinding N N).RoleRef.Kind = "Role" ∧
    (GenerateServiceAccountRoleBinding N N).RoleRef.Kind = "Role" ∧
    (GenerateRoleByNamespace N).ObjectMeta.Name = "default-role" ∧
    (GenerateRoleBinding N N).RoleRef.Name = (GenerateRoleByNamespace N).ObjectMeta.Name ∧
    (GenerateServiceAccountRoleBinding N N).RoleRef.Name =
      (GenerateRoleByNamespace N).ObjectMeta.Name ∧
    (GenerateRoleBinding N N).ObjectMeta.Namespace =
      (GenerateRoleByNamespace N).ObjectMeta.Namespace ∧
    (GenerateServiceAccountRoleBinding N N).ObjectMeta.Namespace =
      (GenerateRoleByNamespace N).ObjectMeta.Namespace := by
  refine ⟨?_, ?_, rfl, rfl, rfl, rfl, rfl, rfl, rfl, rfl, rfl, rfl, rfl, rfl, rfl, rfl, rfl⟩
  · obtain ⟨tr, htr, hcases⟩ := syncRBAC_trace c ⟨N, none⟩ w rfl
    rw [callsSince_of_append htr]
    intro r hr hb
    rcases hcases with ⟨e₁, rfl, _⟩ | ⟨e₁, e₂, rfl, _⟩ | ⟨e₁, e₂, e₃, rfl, _⟩ |
      ⟨e₁, e₂, e₃, rfl, _⟩ <;>
    · simp only [List.mem_cons, List.mem_singleton, List.not_mem_nil, or_false] at hr
      rcases hr with rfl | rfl | rfl <;>
        first
        | exact Or.inl rfl
        | exact Or.inr rfl
        | exact absurd hb (by simp [roleCall, Call.isRoleBindingCreate])
  · obtain ⟨tr, htr, hcases⟩ := syncRBAC_trace c ⟨N, none⟩ w rfl
    rw [callsSince_of_append htr]
    intro hnil
    rcases hcases with ⟨e₁, rfl, f, hres⟩ | ⟨e₁, e₂, rfl, _, f, hres⟩ |
      ⟨e₁, e₂, e₃, rfl, _, _, f, hres⟩ | ⟨e₁, e₂, e₃, rfl, _⟩
    · exact absurd (hres.symm.trans hnil) f.1
    · exact absurd (hres.symm.trans hnil) f.1
    · exact absurd (hres.symm.trans hnil) f.1
    · rfl

/-- Witness of C6: namespace `team-a` on the empty reference store, where the
call returns nil and both bindings are submitted. -/
theorem syncRBAC_submits_generated_bindings_witness :
    (storeController.syncRBAC ⟨"team-a", none⟩ emptyWorld).1 = none ∧
    ((callsSince emptyWorld (storeController.syncRBAC ⟨"team-a", none⟩ emptyWorld).2).map
        (fun r => r.call)).filter Call.isRoleBindingCreate =
      [.createRoleBinding "team-a" (GenerateRoleBinding "team-a" "team-a"),
       .createRoleBinding "team-a" (GenerateServiceAccountRoleBinding "team-a" "team-a")] :=
  ⟨by decide,
    (syncRBAC_submits_generated_bindings "team-a" storeController emptyWorld).2.1 (by decide)⟩

/-- C9: the generators are deterministic and total.  Run as Go calls on
explicit heaps, for every namespace name `N` (the empty string included) and
project `P`, two invocations of a generator with the same arguments, in any
two program states, both return (neither panics) and the objects their
pointers refer to are the same: the Role `GenerateRoleByNamespace N`, the
RoleBindings `GenerateRoleBinding N P` and
`GenerateServiceAccountRoleBinding N P`.  Two successive invocations return
two different pointers to structurally identical objects, the second call
leaving the first object as it was. -/
theorem generators_deterministic (N P : String) (h h' : Heap) :
    (∃ p₁ h₁ p₂ h₂,
      GenerateRoleByNamespace.exec N h = .ok (p₁, h₁) ∧
      GenerateRoleByNamespace.exec N h' = .ok (p₂, h₂) ∧
      h₁.load p₁ = some (.role (GenerateRoleByNamespace N)) ∧
      h₂.load p₂ = some (.role (GenerateRoleByNamespace N))) ∧
    (∃ p₁ h₁ p₂ h₂,
      GenerateRoleByNamespace.exec N h = .ok (p₁, h₁) ∧
      GenerateRoleByNamespace.exec N h₁ = .ok (p₂, h₂) ∧ p₁ ≠ p₂ ∧
      h₂.load p₁ = some (.role (GenerateRoleByNamespace N)) ∧
      h₂.load p₂ = some (.role (GenerateRoleByNamespace N))) ∧
    (∃ p₁ h₁ p₂ h₂,
      GenerateRoleBinding.exec N P h = .ok (p₁, h₁) ∧
      GenerateRoleBinding.exec N P h' = .ok (p₂, h₂) ∧
      h₁.load p₁ = some (.roleBinding (GenerateRoleBinding N P)) ∧
      h₂.load p₂ = some (.roleBinding (GenerateRoleBinding N P))) ∧
    (∃ p₁ h₁ p₂ h₂,
      GenerateRoleBinding.exec N P h = .ok (p₁, h₁) ∧
      GenerateRoleBinding.exec N P h₁ = .ok (p₂, h₂) ∧ p₁ ≠ p₂ ∧
      h₂.load p₁ = some (.roleBinding (GenerateRoleBinding N P)) ∧
      h₂.load p₂ = some (.roleBinding (GenerateRoleBinding N P))) ∧
    (∃ p₁ h₁ p₂ h₂,
      GenerateServiceAccountRoleBinding.exec N P h = .ok (p₁, h₁) ∧
      GenerateServiceAccountRoleBinding.exec N P h' = .ok (p₂, h₂) ∧
      h₁.load p₁ = some (.roleBinding (GenerateServiceAccountRoleBinding N P)) ∧
      h₂.load p₂ = some (.roleBinding (GenerateServiceAccountRoleBinding N P))) ∧
    (∃ p₁ h₁ p₂ h₂,
      GenerateServiceAccountRoleBinding.exec N P h = .ok (p₁, h₁) ∧
      GenerateServiceAccountRoleBinding.exec N P h₁ = .ok (p₂, h₂) ∧ p₁ ≠ p₂ ∧
      h₂.load p₁ = some (.roleBinding (GenerateServiceAccountRoleBinding N P)) ∧
      h₂.load p₂ = some (.roleBinding (GenerateServiceAccountRoleBinding N P))) := by
  refine ⟨?_, ?_, ?_, ?_, ?_, ?_⟩
  · exact ⟨_, _, _, _, rfl, rfl, Heap.load_new h _, Heap.load_new h' _⟩
  · exact ⟨_, _, _, _, rfl, rfl, Heap.new_ne_next h _, Heap.load_new_next h _ _,
      Heap.load_new _ _⟩
  · exact ⟨_, _, _, _, rfl, rfl, Heap.load_new h _, Heap.load_new h' _⟩
  · exact ⟨_, _, _, _, rfl, rfl, Heap.new_ne_next h _, Heap.load_new_next h _ _,
      Heap.load_new _ _⟩
  · exact ⟨_, _, _, _, rfl, rfl, Heap.load_new h _, Heap.load_new h' _⟩
  · exact ⟨_, _, _, _, rfl, rfl, Heap.new_ne_next h _, Heap.load_new_next h _ _,
      Heap.load_new _ _⟩

/-- C10: for every delete event, whatever the namespace it carries, the client
and the store, the delete handler makes no store call and leaves the store
unchanged. -/
theorem onDelete_makes_no_store_call {σ : Type} (c : Controller σ) (obj : Namespace)
    (w : World σ) :
    callsSince w (c.handle (.delete obj) w) = [] ∧
      (c.handle (.delete obj) w).store = w.store ∧
      c.onDelete obj w = w := by
  simp [Controller.handle, Controller.onDelete, callsSince]

/-- Counterexample to C8 as stated: with a failing subscription and a closed
stop channel `Run` returns nil, not a non-nil error, and so does
`startControllers`; with a failing subscription and no termination signal both
block and return nothing. -/
theorem Run_returns_nil_on_subscription_failure :
    storeController.Run true true = .returned none ∧
    (¬ ∃ e, storeController.Run true true = .returned (some e)) ∧
    startControllers storeClient ⟨true, true⟩ = .returned none ∧
    (¬ ∃ e, startControllers storeClient ⟨true, true⟩ = .returned (some e)) ∧
    storeController.Run true false = .blocked ∧
    startControllers storeClient ⟨true, false⟩ = .blocked := by
  have hRun : storeController.Run true true = .returned none := by decide
  have hStart : startControllers storeClient ⟨true, true⟩ = .returned none := by decide
  refine ⟨hRun, ?_, hStart, ?_, by decide, by decide⟩
  · rintro ⟨e, he⟩
    rw [hRun] at he
    cases he
  · rintro ⟨e, he⟩
    rw [hStart] at he
    cases he

/-- C8, amended: whatever happens to the namespace subscription, `Run` never
returns a non-nil error, and it returns nil exactly when the stop channel is
closed; `startControllers` never returns a non-nil error either, and it
returns nil exactly when a termination signal arrives. -/
theorem Run_never_returns_error {σ : Type} (c : Controller σ) (kubeClient : Interface σ)
    (subscriptionFails stopClosed : Bool) (env : Environment) :
    (∀ e, c.Run subscriptionFails stopClosed ≠ .returned (some e)) ∧
    (c.Run subscriptionFails stopClosed = .returned none ↔ stopClosed = true) ∧
    (∀ e, startControllers kubeClient env ≠ .returned (some e)) ∧
    (startControllers kubeClient env = .returned none ↔ env.termSignal = true) := by
  refine ⟨?_, ?_, ?_, ?_⟩
  · intro e
    cases stopClosed <;> simp [Controller.Run]
  · cases stopClosed <;> simp [Controller.Run]
  · intro e
    cases h : env.termSignal <;>
      simp [startControllers, NewRBACController, Controller.Run, h]
  · cases h : env.termSignal <;>
      simp [startControllers, NewRBACController, Controller.Run, h]

/-- C7, the code at the failing input: for the update event that marks the live
namespace `team-b` for deletion, on the empty reference store, the delivered
namespace carries a deletion marker, `syncRBAC` and the add handler make no
store call for it, and the update handler makes the three creates. -/
theorem onUpdate_syncs_the_old_object :
    (Event.update ⟨"team-b", none⟩ ⟨"team-b", some 1⟩).delivered.DeletionTimestamp ≠ none ∧
    callsSince emptyWorld (storeController.syncRBAC
      (Event.update ⟨"team-b", none⟩ ⟨"team-b", some 1⟩).delivered emptyWorld).2 = [] ∧
    callsSince emptyWorld (storeController.handle
      (.add (Event.update ⟨"team-b", none⟩ ⟨"team-b", some 1⟩).delivered) emptyWorld) = [] ∧
    (callsSince emptyWorld (storeController.handle
      (.update ⟨"team-b", none⟩ ⟨"team-b", some 1⟩) emptyWorld)).map (fun r => r.call) =
      [roleCall "team-b", userBindingCall "team-b", saBindingCall "team-b"] := by
  decide

/-! ## `syncRBAC` on the reference store -/

/-- Creating an entry whose key is absent inserts it and returns nil. -/
theorem Store.create_absent (s : Store) (e : Entry) (h : ∀ x ∈ s, x.key ≠ e.key) :
    s.create e = (none, s ++ [e]) := by
  have hany : s.any (fun x => decide (x.key = e.key)) = false := by
    simpa [List.any_eq_false] using h
  simp [Store.create, hany]

/-- Creating an entry whose key is present returns already-exists and leaves
the store unchanged. -/
theorem Store.create_present (s : Store) (e : Entry) (h : ∃ x ∈ s, x.key = e.key) :
    s.create e = (some (.status StatusReasonAlreadyExists "object already exists"), s) := by
  have hany : s.any (fun x => decide (x.key = e.key)) = true := by
    simpa [List.any_eq_true] using h
  simp [Store.create, hany]

/-- A store with no Role and no RoleBinding in namespace `N` has no entry in
namespace `N`. -/
theorem Store.no_entry_of_empty (s : Store) (N : String) (hr : s.roles N = [])
    (hb : s.roleBindings N = []) : ∀ x ∈ s, x.ns ≠ N := by
  intro x hx hN
  rcases x with ⟨ns, obj⟩
  cases obj with
  | role r =>
    have : r ∈ Store.roles s N := by
      simp only [Store.roles, List.mem_filterMap]
      exact ⟨⟨ns, .role r⟩, hx, by simp [show ns = N from hN]⟩
    rw [hr] at this
    exact absurd this (List.not_mem_nil _)
  | roleBinding rb =>
    have : rb ∈ Store.roleBindings s N := by
      simp only [Store.roleBindings, List.mem_filterMap]
      exact ⟨⟨ns, .roleBinding rb⟩, hx, by simp [show ns = N from hN]⟩
    rw [hb] at this
    exact absurd this (List.not_mem_nil _)

/-- On a store with no entry in namespace `N`, `syncRBAC` for the live
namespace `N` inserts the three objects, each create returning nil. -/
theorem syncRBAC_on_fresh_store (N : String) (s : Store) (log : List CallRecord)
    (h : ∀ x ∈ s, x.ns ≠ N) :
    storeController.syncRBAC ⟨N, none⟩ ⟨s, log⟩ =
      (none,
        ⟨s ++ [⟨N, .role (GenerateRoleByNamespace N)⟩,
               ⟨N, .roleBinding (GenerateRoleBinding N N)⟩,
               ⟨N, .roleBinding (GenerateServiceAccountRoleBinding N N)⟩],
         log ++ [⟨roleCall N, none⟩, ⟨userBindingCall N, none⟩, ⟨saBindingCall N, none⟩]⟩) := by
  have h1 : Store.create s ⟨N, .role (GenerateRoleByNamespace N)⟩ =
      (none, s ++ [⟨N, .role (GenerateRoleByNamespace N)⟩]) := by
    apply Store.create_absent
    intro x hx hk
    exact h x hx (congrArg (fun k => k.2.1) hk)
  have h2 : Store.create (s ++ [⟨N, .role (GenerateRoleByNamespace N)⟩])
      ⟨N, .roleBinding (GenerateRoleBinding N N)⟩ =
      (none, s ++ [⟨N, .role (GenerateRoleByNamespace N)⟩,
        ⟨N, .roleBinding (GenerateRoleBinding N N)⟩]) := by
    rw [Store.create_absent]
    · simp
    · intro x hx hk
      rcases List.mem_append.1 hx with hx | hx
      · exact h x hx (congrArg (fun k => k.2.1) hk)
      · rw [List.mem_singleton.1 hx] at hk
        exact absurd (congrArg (fun k => k.1) hk) (by simp [Entry.key, StoredObject.kind])
  have h3 : Store.create (s ++ [⟨N, .role (GenerateRoleByNamespace N)⟩,
        ⟨N, .roleBinding (GenerateRoleBinding N N)⟩])
      ⟨N, .roleBinding (GenerateServiceAccountRoleBinding N N)⟩ =
      (none, s ++ [⟨N, .role (GenerateRoleByNamespace N)⟩,
        ⟨N, .roleBinding (GenerateRoleBinding N N)⟩,
        ⟨N, .roleBinding (GenerateServiceAccountRoleBinding N N)⟩]) := by
    rw [Store.create_absent]
    · simp
    · intro x hx hk
      rcases List.mem_append.1 hx with hx | hx
      · exact h x hx (congrArg (fun k => k.2.1) hk)
      · simp only [List.mem_cons, List.mem_singleton, List.not_mem_nil, or_false] at hx
        rcases hx with rfl | rfl
        · exact absurd (congrArg (fun k => k.1) hk) (by simp [Entry.key, StoredObject.kind])
        · exact rolebinding_name_ne N (congrArg (fun k => k.2.2) hk)
  simp [Controller.syncRBAC, storeController, NewRBACController, Interface.RolesCreate,
    Interface.RoleBindingsCreate, storeClient, h1, h2, h3, roleCall, userBindingCall,
    saBindingCall]

/-- The error the reference store returns for a present key is an
already-exists error. -/
theorem IsAlreadyExists_store_error :
    IsAlreadyExists (some (.status StatusReasonAlreadyExists "object already exists")) = true := by
  decide

/-- On a store that ends with the three objects of namespace `N`, `syncRBAC` for
the live namespace `N` changes nothing: each create returns already-exists and
the call returns nil. -/
theorem syncRBAC_on_synced_store (N : String) (s : Store) (log : List CallRecord) :
    storeController.syncRBAC ⟨N, none⟩
        ⟨s ++ [⟨N, .role (GenerateRoleByNamespace N)⟩,
               ⟨N, .roleBinding (GenerateRoleBinding N N)⟩,
               ⟨N, .roleBinding (GenerateServiceAccountRoleBinding N N)⟩], log⟩ =
      (none,
        ⟨s ++ [⟨N, .role (GenerateRoleByNamespace N)⟩,
               ⟨N, .roleBinding (GenerateRoleBinding N N)⟩,
               ⟨N, .roleBinding (GenerateServiceAccountRoleBinding N N)⟩],
         log ++ [⟨roleCall N, some (.status StatusReasonAlreadyExists "object already exists")⟩,
           ⟨userBindingCall N,
             some (.status StatusReasonAlreadyExists "object already exists")⟩,
           ⟨saBindingCall N,
             some (.status StatusReasonAlreadyExists "object already exists")⟩]⟩) := by
  have h1 := Store.create_present
    (s ++ [⟨N, .role (GenerateRoleByNamespace N)⟩,
           ⟨N, .roleBinding (GenerateRoleBinding N N)⟩,
           ⟨N, .roleBinding (GenerateServiceAccountRoleBinding N N)⟩])
    ⟨N, .role (GenerateRoleByNamespace N)⟩ ⟨_, by simp, rfl⟩
  have h2 := Store.create_present
    (s ++ [⟨N, .role (GenerateRoleByNamespace N)⟩,
           ⟨N, .roleBinding (GenerateRoleBinding N N)⟩,
           ⟨N, .roleBinding (GenerateServiceAccountRoleBinding N N)⟩])
    ⟨N, .roleBinding (GenerateRoleBinding N N)⟩ ⟨_, by simp, rfl⟩
  have h3 := Store.create_present
    (s ++ [⟨N, .role (GenerateRoleByNamespace N)⟩,
           ⟨N, .roleBinding (GenerateRoleBinding N N)⟩,
           ⟨N, .roleBinding (GenerateServiceAccountRoleBinding N N)⟩])
    ⟨N, .roleBinding (GenerateServiceAccountRoleBinding N N)⟩ ⟨_, by simp, rfl⟩
  simp [Controller.syncRBAC, storeController, NewRBACController, Interface.RolesCreate,
    Interface.RoleBindingsCreate, storeClient, h1, h2, h3, roleCall, userBindingCall,
    saBindingCall, IsAlreadyExists_store_error]

/-- C3: on the reference store, for every namespace name `N` and every initial
store with no Role and no RoleBinding in `N`, two successive `syncRBAC` calls
for the live namespace `N` leave in `N` exactly the Role `default-role` and the
RoleBindings `N-rolebinding` and `N-rolebinding-sa`; the store after the second
call is the store after the first; both calls return nil; and the second call
makes the three creates, each of which returns already-exists. -/
theorem syncRBAC_twice_is_idempotent (N : String) (s : Store) (log : List CallRecord)
    (hr : s.roles N = []) (hb : s.roleBindings N = []) :
    (firstSync N s log).1 = none ∧
    (secondSync N s log).1 = none ∧
    (secondSync N s log).2.store = (firstSync N s log).2.store ∧
    (secondSync N s log).2.store.roles N = [GenerateRoleByNamespace N] ∧
    (secondSync N s log).2.store.roleBindings N =
      [GenerateRoleBinding N N, GenerateServiceAccountRoleBinding N N] ∧
    ((secondSync N s log).2.store.roles N).map (fun r => r.ObjectMeta.Name) =
      ["default-role"] ∧
    ((secondSync N s log).2.store.roleBindings N).map (fun b => b.ObjectMeta.Name) =
      [N ++ "-rolebinding", N ++ "-rolebinding-sa"] ∧
    (callsSince (firstSync N s log).2 (secondSync N s log).2).map (fun r => r.call) =
      [roleCall N, userBindingCall N, saBindingCall N] ∧
    (∀ r ∈ callsSince (firstSync N s log).2 (secondSync N s log).2,
      IsAlreadyExists r.err = true) := by
  have hfresh := Store.no_entry_of_empty s N hr hb
  have h1 : firstSync N s log = _ := syncRBAC_on_fresh_store N s log hfresh
  have h2 := syncRBAC_on_synced_store N s
    (log ++ [⟨roleCall N, none⟩, ⟨userBindingCall N, none⟩, ⟨saBindingCall N, none⟩])
  have hroles : Store.roles (s ++ [⟨N, .role (GenerateRoleByNamespace N)⟩,
      ⟨N, .roleBinding (GenerateRoleBinding N N)⟩,
      ⟨N, .roleBinding (GenerateServiceAccountRoleBinding N N)⟩]) N =
      [GenerateRoleByNamespace N] := by
    have := hr
    simp only [Store.roles] at this ⊢
    simp [List.filterMap_append, this]
  have hbindings : Store.roleBindings (s ++ [⟨N, .role (GenerateRoleByNamespace N)⟩,
      ⟨N, .roleBinding (GenerateRoleBinding N N)⟩,
      ⟨N, .roleBinding (GenerateServiceAccountRoleBinding N N)⟩]) N =
      [GenerateRoleBinding N N, GenerateServiceAccountRoleBinding N N] := by
    have := hb
    simp only [Store.roleBindings] at this ⊢
    simp [List.filterMap_append, this]
  simp only [secondSync, h1, h2]
  refine ⟨trivial, trivial, trivial, hroles, hbindings, ?_, ?_, ?_, ?_⟩
  · simp only [hroles]
    rfl
  · simp only [hbindings]
    rfl
  · simp [callsSince]
  · intro r hr
    simp only [callsSince, List.drop_left, List.mem_cons, List.mem_singleton,
      List.not_mem_nil, or_false] at hr
    rcases hr with rfl | rfl | rfl <;> exact IsAlreadyExists_store_error

/-- Witness of C3: namespace `team-a` on the empty reference store. -/
theorem syncRBAC_twice_is_idempotent_witness :
    Store.roles [] "team-a" = [] ∧ Store.roleBindings [] "team-a" = [] ∧
    ((firstSync "team-a" [] []).1 = none ∧
    (secondSync "team-a" [] []).1 = none ∧
    (secondSync "team-a" [] []).2.store = (firstSync "team-a" [] []).2.store ∧
    (secondSync "team-a" [] []).2.store.roles "team-a" = [GenerateRoleByNamespace "team-a"] ∧
    (secondSync "team-a" [] []).2.store.roleBindings "team-a" =
      [GenerateRoleBinding "team-a" "team-a",
       GenerateServiceAccountRoleBinding "team-a" "team-a"] ∧
    ((secondSync "team-a" [] []).2.store.roles "team-a").map (fun r => r.ObjectMeta.Name) =
      ["default-role"] ∧
    ((secondSync "team-a" [] []).2.store.roleBindings "team-a").map
        (fun b => b.ObjectMeta.Name) =
      ["team-a" ++ "-rolebinding", "team-a" ++ "-rolebinding-sa"] ∧
    (callsSince (firstSync "team-a" [] []).2 (secondSync "team-a" [] []).2).map
        (fun r => r.call) =
      [roleCall "team-a", userBindingCall "team-a", saBindingCall "team-a"] ∧
    (∀ r ∈ callsSince (firstSync "team-a" [] []).2 (secondSync "team-a" [] []).2,
      IsAlreadyExists r.err = true)) :=
  ⟨rfl, rfl, syncRBAC_twice_is_idempotent "team-a" [] [] rfl rfl⟩

end RBAC
